import Mathlib

/-!
Verification of the LISA cost forecast dashboard (`dashboard.py`).

The script reads scalar assumptions from the sidebar, builds a per-year
cost table with a geometric customer-growth recurrence and compounding
inflation multipliers, derives sums and per-unit ratios, and exports the
table plus an assumptions sheet to a spreadsheet.

Modelling conventions:
* Python floats are modelled by `ℚ`; the arithmetic of the script
  (additions, multiplications, divisions, integer powers of rationals)
  is exact over `ℚ`.
* `numpy`'s `.astype(int)` truncation toward zero is `intTrunc`.
* pandas column division, which yields a non-finite IEEE value
  (`inf` or `NaN`) when the denominator is zero instead of raising,
  is `pdDiv` into the type `PerUnit` (`finite q` / `nonfinite`).
* The script has no function boundaries; `forecast` packages the
  data-calculation section (lines 50-101) as a function of the sidebar
  inputs.  Building `pd.DataFrame(data)` raises a `ValueError` when the
  column lists have different lengths; this is the only failure path and
  is modelled by `Except String`.
-/

/-- The sidebar inputs of `dashboard.py` (lines 18-45), one field per
widget.  Numeric widget values are modelled as `ℚ` (years as `ℤ`); the
widget `min_value`/slider bounds are NOT baked into the type and appear
as hypotheses where a claim needs them. -/
structure Assumptions where
  start_year : ℤ
  end_year : ℤ
  customers_start : ℚ
  customers_growth : ℚ
  vehicles_per_customer : ℚ
  riders_per_vehicle : ℚ
  cost_per_vehicle_compute : ℚ
  cost_per_vehicle_db : ℚ
  cost_per_vehicle_bigquery : ℚ
  cost_per_vehicle_streaming : ℚ
  cost_per_vehicle_monitoring : ℚ
  cost_per_user_auth : ℚ
  cost_per_user_support : ℚ
  staff_support_per_customer : ℚ
  staff_devops_per_customer : ℚ
  infra_increase : ℚ
  staff_increase : ℚ
  deriving DecidableEq

/-- The sidebar bounds the input collaborator enforces (`min_value`,
slider ranges) on the fields the forecast arithmetic reads; spec §3 calls
these the Assumptions invariants. -/
def InRange (a : Assumptions) : Prop :=
  1 ≤ a.customers_start ∧ 0 ≤ a.customers_growth ∧
  1 ≤ a.vehicles_per_customer ∧ 1 ≤ a.riders_per_vehicle ∧
  0 ≤ a.cost_per_vehicle_compute ∧ 0 ≤ a.cost_per_vehicle_db ∧
  0 ≤ a.cost_per_vehicle_bigquery ∧ 0 ≤ a.cost_per_vehicle_streaming ∧
  0 ≤ a.cost_per_vehicle_monitoring ∧ 0 ≤ a.cost_per_user_auth ∧
  0 ≤ a.cost_per_user_support ∧ 0 ≤ a.staff_support_per_customer ∧
  0 ≤ a.staff_devops_per_customer ∧ 0 ≤ a.infra_increase ∧
  0 ≤ a.staff_increase

instance (a : Assumptions) : Decidable (InRange a) := by
  unfold InRange; infer_instance

/-- Model of numpy `.astype(int)`: truncation toward zero (lines 67-69). -/
def intTrunc (q : ℚ) : ℤ :=
  if q < 0 then -Int.floor (-q) else Int.floor q

/-- Result of a pandas column division: a finite value, or the
non-finite IEEE float (`inf` or `NaN`) produced when the denominator
is zero. -/
inductive PerUnit where
  | finite (q : ℚ) : PerUnit
  | nonfinite : PerUnit
  deriving DecidableEq

/-- pandas `/` on columns (lines 99-101): division by a zero
denominator yields a non-finite value, never an exception. -/
def pdDiv (num den : ℚ) : PerUnit :=
  if den = 0 then PerUnit.nonfinite else PerUnit.finite (num / den)

/-- The list `years = list(range(start_year, end_year + 1))` has
`max 0 (end_year + 1 - start_year)` entries (line 50-51). -/
def nYears (a : Assumptions) : ℕ :=
  (a.end_year + 1 - a.start_year).toNat

/-- The customer recurrence of lines 53-55: start value, then each year
multiplies by `1 + customers_growth / 100`. -/
def customersSeq (a : Assumptions) : ℕ → ℚ
  | 0 => a.customers_start
  | i + 1 => customersSeq a i * (1 + a.customers_growth / 100)

/-- The `customers` python list: it begins with `customers_start` and the
loop `for _ in range(1, n_years)` appends one element per iteration, so
its length is `max 1 n_years` and its `i`-th element is
`customersSeq a i`. -/
def customersList (a : Assumptions) : List ℚ :=
  (List.range (Nat.max 1 (nYears a))).map (customersSeq a)

/-- Line 58: `vehicles = customers * vehicles_per_customer`. -/
def vehiclesSeq (a : Assumptions) (i : ℕ) : ℚ :=
  customersSeq a i * a.vehicles_per_customer

/-- Line 59: `users = vehicles * riders_per_vehicle`. -/
def usersSeq (a : Assumptions) (i : ℕ) : ℚ :=
  vehiclesSeq a i * a.riders_per_vehicle

/-- Function `apply_inflation` (lines 62-63), element-wise at year index `i`:
`base_cost * ((1 + rate_percent/100) ** i)`. -/
def apply_inflation (base_cost rate_percent : ℚ) (i : ℕ) : ℚ :=
  base_cost * ((1 + rate_percent / 100) ^ i)

/-- Column "Compute & Kubernetes" at index `i` (line 72). -/
def computeCost (a : Assumptions) (i : ℕ) : ℚ :=
  apply_inflation (a.cost_per_vehicle_compute * vehiclesSeq a i) a.infra_increase i

/-- Column "Transactional DB" at index `i` (line 73). -/
def dbCost (a : Assumptions) (i : ℕ) : ℚ :=
  apply_inflation (a.cost_per_vehicle_db * vehiclesSeq a i) a.infra_increase i

/-- Column "Analytics (BigQuery)" at index `i` (line 74). -/
def bigqueryCost (a : Assumptions) (i : ℕ) : ℚ :=
  apply_inflation (a.cost_per_vehicle_bigquery * vehiclesSeq a i) a.infra_increase i

/-- Column "Streaming" at index `i` (line 75). -/
def streamingCost (a : Assumptions) (i : ℕ) : ℚ :=
  apply_inflation (a.cost_per_vehicle_streaming * vehiclesSeq a i) a.infra_increase i

/-- Column "Monitoring" at index `i` (line 76). -/
def monitoringCost (a : Assumptions) (i : ℕ) : ℚ :=
  apply_inflation (a.cost_per_vehicle_monitoring * vehiclesSeq a i) a.infra_increase i

/-- Column "Auth (Firebase)" at index `i` (line 79): note the
multiplier is the `users` series. -/
def authCost (a : Assumptions) (i : ℕ) : ℚ :=
  apply_inflation (a.cost_per_user_auth * usersSeq a i) a.infra_increase i

/-- Column "Support Tools (Intercom)" at index `i` (line 80): note the
multiplier is the `users` series. -/
def supportCost (a : Assumptions) (i : ℕ) : ℚ :=
  apply_inflation (a.cost_per_user_support * usersSeq a i) a.infra_increase i

/-- Column "Support Staff" at index `i` (line 83): `customers` series,
staff inflation. -/
def supportStaffCost (a : Assumptions) (i : ℕ) : ℚ :=
  apply_inflation (a.staff_support_per_customer * customersSeq a i) a.staff_increase i

/-- Column "DevOps/Infra Engineers" at index `i` (line 84): `customers`
series, staff inflation. -/
def devopsCost (a : Assumptions) (i : ℕ) : ℚ :=
  apply_inflation (a.staff_devops_per_customer * customersSeq a i) a.staff_increase i

/-- One row of the final DataFrame `df` after lines 87-101: the raw
columns, the three totals and the three per-unit ratios. -/
structure ForecastRow where
  year : ℤ
  customers : ℤ
  vehicles : ℤ
  users : ℤ
  computeK8s : ℚ
  transactionalDB : ℚ
  analyticsBigQuery : ℚ
  streaming : ℚ
  monitoring : ℚ
  authFirebase : ℚ
  supportTools : ℚ
  supportStaff : ℚ
  devopsEngineers : ℚ
  totalInfrastructure : ℚ
  totalStaff : ℚ
  grandTotal : ℚ
  perVehicle : PerUnit
  perUser : PerUnit
  perCustomer : PerUnit
  deriving DecidableEq

/-- Row `i` of `df`: populations truncated with `.astype(int)`
(lines 67-69), the nine cost columns (lines 72-84),
`df["Total Infrastructure"] = df[infra_cols].sum(axis=1)`,
`df["Total Staff"] = df[staff_cols].sum(axis=1)`,
`df["Grand Total"]` their sum (lines 94-96), and the ratios dividing
`Grand Total` by the truncated population columns (lines 99-101). -/
def forecastRow (a : Assumptions) (i : ℕ) : ForecastRow :=
  let ti := computeCost a i + dbCost a i + bigqueryCost a i + streamingCost a i +
    monitoringCost a i + authCost a i + supportCost a i
  let ts := supportStaffCost a i + devopsCost a i
  let gt := ti + ts
  { year := a.start_year + i
  , customers := intTrunc (customersSeq a i)
  , vehicles := intTrunc (vehiclesSeq a i)
  , users := intTrunc (usersSeq a i)
  , computeK8s := computeCost a i
  , transactionalDB := dbCost a i
  , analyticsBigQuery := bigqueryCost a i
  , streaming := streamingCost a i
  , monitoring := monitoringCost a i
  , authFirebase := authCost a i
  , supportTools := supportCost a i
  , supportStaff := supportStaffCost a i
  , devopsEngineers := devopsCost a i
  , totalInfrastructure := ti
  , totalStaff := ts
  , grandTotal := gt
  , perVehicle := pdDiv gt (intTrunc (vehiclesSeq a i) : ℚ)
  , perUser := pdDiv gt (intTrunc (usersSeq a i) : ℚ)
  , perCustomer := pdDiv gt (intTrunc (customersSeq a i) : ℚ) }

/-- The forecast table: one row per element of
`range(start_year, end_year + 1)`. -/
def forecastRows (a : Assumptions) : List ForecastRow :=
  (List.range (nYears a)).map (forecastRow a)

/-- The message of the `ValueError` pandas raises when the `data` dict
columns have different lengths. -/
def arrayLengthError : String := "All arrays must be of the same length"

/-- The whole data-calculation section as a function: building
`pd.DataFrame(data)` fails when the `customers` list (length
`max 1 n_years`) and the `years` list (length `n_years`) disagree,
i.e. exactly when `n_years = 0`; otherwise the table of `forecastRow`s
is produced. -/
def forecast (a : Assumptions) : Except String (List ForecastRow) :=
  if (customersList a).length ≠ nYears a then Except.error arrayLengthError
  else Except.ok (forecastRows a)

/-- The `assumptions` dict serialized to the "Assumptions" sheet
(lines 135-144): eight labelled values, years cast to `ℚ` for
uniformity.  The nine cost-rate inputs do not appear in it. -/
def assumptionsExport (a : Assumptions) : List (String × ℚ) :=
  [("Start Year", (a.start_year : ℚ)),
   ("End Year", (a.end_year : ℚ)),
   ("Starting Customers", a.customers_start),
   ("Annual Customer Growth (%)", a.customers_growth),
   ("Vehicles per Customer", a.vehicles_per_customer),
   ("Riders per Vehicle", a.riders_per_vehicle),
   ("Infrastructure Inflation (%)", a.infra_increase),
   ("Staff Inflation (%)", a.staff_increase)]

/-- The Excel workbook written by lines 148-152: the forecast table
under sheet name "Forecast", the assumptions record under sheet name
"Assumptions". -/
structure ExcelWorkbook where
  forecastSheet : String × List ForecastRow
  assumptionsSheet : String × List (String × ℚ)
  deriving DecidableEq

/-- Lines 150-151: `df.to_excel(writer, sheet_name='Forecast')` and
`assumptions_df.to_excel(writer, sheet_name='Assumptions')`. -/
def excelExport (a : Assumptions) : ExcelWorkbook :=
  { forecastSheet := ("Forecast", forecastRows a)
  , assumptionsSheet := ("Assumptions", assumptionsExport a) }

/-- The sidebar default values of every widget (lines 18-45), used as a
concrete test input. -/
def defaultAssumptions : Assumptions :=
  { start_year := 2025
  , end_year := 2030
  , customers_start := 10
  , customers_growth := 50
  , vehicles_per_customer := 50
  , riders_per_vehicle := 10
  , cost_per_vehicle_compute := 50
  , cost_per_vehicle_db := 15
  , cost_per_vehicle_bigquery := 10
  , cost_per_vehicle_streaming := 8
  , cost_per_vehicle_monitoring := 5
  , cost_per_user_auth := 1
  , cost_per_user_support := 1
  , staff_support_per_customer := 1000
  , staff_devops_per_customer := 2000
  , infra_increase := 5
  , staff_increase := 5 }

/-- The single-year scenario of spec §8: default sidebar values except
`end_year = start_year = 2025` and zero customer growth. -/
def singleYearAssumptions : Assumptions :=
  { defaultAssumptions with end_year := 2025, customers_growth := 0 }

/-- An inverted year range (`end_year < start_year`), otherwise the
default sidebar values.  Not reachable through the sidebar, whose End
Year widget has `min_value = start_year + 1`. -/
def invertedAssumptions : Assumptions :=
  { defaultAssumptions with end_year := 2024 }

/-- C3 helper: the length of the python `customers` list. -/
lemma customersList_length (a : Assumptions) :
    (customersList a).length = Nat.max 1 (nYears a) := by
  simp [customersList]

/-- Lemma: `forecast` succeeds exactly on a non-empty year range, returning the
full table. -/
lemma forecast_eq (a : Assumptions) :
    forecast a = if nYears a = 0 then Except.error arrayLengthError
      else Except.ok (forecastRows a) := by
  unfold forecast
  rw [customersList_length]
  by_cases h : nYears a = 0
  · simp [h]
  · have hm : Nat.max 1 (nYears a) = nYears a :=
      Nat.max_eq_right (Nat.one_le_iff_ne_zero.mpr h)
    simp [hm, h]

/-- C1 (amended): the computation fails (with the pandas column-length
`ValueError`, the only failure path) exactly when `end_year <
start_year`; for `end_year ≥ start_year` — including equality — it
succeeds and returns the whole table. -/
theorem forecast_fails_iff_inverted (a : Assumptions) :
    (a.end_year < a.start_year → forecast a = Except.error arrayLengthError) ∧
    (a.start_year ≤ a.end_year → forecast a = Except.ok (forecastRows a)) := by
  rw [forecast_eq]
  unfold nYears
  constructor <;> intro h
  · rw [if_pos (by omega)]
  · rw [if_neg (by omega)]

/-- Witness for C1 (amended): the inverted default input fails, the
default input succeeds. -/
theorem forecast_fails_iff_inverted_witness :
    (invertedAssumptions.end_year < invertedAssumptions.start_year ∧
      forecast invertedAssumptions = Except.error arrayLengthError) ∧
    (defaultAssumptions.start_year ≤ defaultAssumptions.end_year ∧
      forecast defaultAssumptions = Except.ok (forecastRows defaultAssumptions)) :=
  ⟨⟨by decide, (forecast_fails_iff_inverted invertedAssumptions).1 (by decide)⟩,
   ⟨by decide, (forecast_fails_iff_inverted defaultAssumptions).2 (by decide)⟩⟩

/-- Counterexample to C1 as stated: at `end_year = start_year = 2025`
(an "empty or inverted" range per the claim) the computation does not
fail — it succeeds and produces a one-row table. -/
theorem forecast_succeeds_at_equal_years :
    singleYearAssumptions.end_year ≤ singleYearAssumptions.start_year ∧
    forecast singleYearAssumptions = Except.ok (forecastRows singleYearAssumptions) ∧
    (forecastRows singleYearAssumptions).length = 1 := by
  refine ⟨by decide, ?_, ?_⟩
  · exact (forecast_fails_iff_inverted singleYearAssumptions).2 (by decide)
  · simp [forecastRows]
    decide

/-- C3: both user-based infrastructure components are the base rate
times the `users` population times the infrastructure-inflation
multiplier `(1 + infra_inflation_pct/100)^i`. -/
theorem user_components_use_users (a : Assumptions) (i : ℕ) :
    (forecastRow a i).authFirebase =
      a.cost_per_user_auth * usersSeq a i * (1 + a.infra_increase / 100) ^ i ∧
    (forecastRow a i).supportTools =
      a.cost_per_user_support * usersSeq a i * (1 + a.infra_increase / 100) ^ i :=
  ⟨rfl, rfl⟩

/-- C5: in every row of the table, Total Infrastructure is the sum of
the seven infrastructure components, Total Staff the sum of the two
staffing components, and Grand Total their sum (exactly, over `ℚ`). -/
theorem totals_additive (a : Assumptions) :
    ∀ r ∈ forecastRows a,
      r.totalInfrastructure = r.computeK8s + r.transactionalDB + r.analyticsBigQuery +
        r.streaming + r.monitoring + r.authFirebase + r.supportTools ∧
      r.totalStaff = r.supportStaff + r.devopsEngineers ∧
      r.grandTotal = r.totalInfrastructure + r.totalStaff := by
  intro r hr
  simp only [forecastRows, List.mem_map] at hr
  obtain ⟨i, -, rfl⟩ := hr
  exact ⟨rfl, rfl, rfl⟩

/-- Witness for C5 at the first row of the default table. -/
theorem totals_additive_witness :
    (forecastRow defaultAssumptions 0).totalInfrastructure =
      (forecastRow defaultAssumptions 0).computeK8s +
      (forecastRow defaultAssumptions 0).transactionalDB +
      (forecastRow defaultAssumptions 0).analyticsBigQuery +
      (forecastRow defaultAssumptions 0).streaming +
      (forecastRow defaultAssumptions 0).monitoring +
      (forecastRow defaultAssumptions 0).authFirebase +
      (forecastRow defaultAssumptions 0).supportTools ∧
    (forecastRow defaultAssumptions 0).totalStaff =
      (forecastRow defaultAssumptions 0).supportStaff +
      (forecastRow defaultAssumptions 0).devopsEngineers ∧
    (forecastRow defaultAssumptions 0).grandTotal =
      (forecastRow defaultAssumptions 0).totalInfrastructure +
      (forecastRow defaultAssumptions 0).totalStaff :=
  totals_additive defaultAssumptions (forecastRow defaultAssumptions 0)
    (List.mem_map.mpr ⟨0, List.mem_range.mpr (by decide), rfl⟩)

/-- C4: for a valid range the table has `end_year - start_year + 1`
rows and row `i` carries year `start_year + i` (strictly increasing,
contiguous). -/
theorem table_shape (a : Assumptions) (h : a.start_year < a.end_year) :
    forecast a = Except.ok (forecastRows a) ∧
    (forecastRows a).length = (a.end_year - a.start_year + 1).toNat ∧
    ∀ i (hi : i < (forecastRows a).length),
      ((forecastRows a).get ⟨i, hi⟩).year = a.start_year + i := by
  refine ⟨(forecast_fails_iff_inverted a).2 h.le, ?_, ?_⟩
  · simp only [forecastRows, List.length_map, List.length_range]
    unfold nYears
    omega
  · intro i hi
    simp [forecastRows, forecastRow]

/-- Witness for C4 at the default input (years 2025-2030, six rows). -/
theorem table_shape_witness :
    defaultAssumptions.start_year < defaultAssumptions.end_year ∧
    (forecast defaultAssumptions = Except.ok (forecastRows defaultAssumptions) ∧
      (forecastRows defaultAssumptions).length =
        (defaultAssumptions.end_year - defaultAssumptions.start_year + 1).toNat ∧
      ∀ i (hi : i < (forecastRows defaultAssumptions).length),
        ((forecastRows defaultAssumptions).get ⟨i, hi⟩).year =
          defaultAssumptions.start_year + i) :=
  ⟨by decide, table_shape defaultAssumptions (by decide)⟩

/-- C8: the single-year scenario yields a one-row table with 500
vehicles and a Compute & Kubernetes cost of 25000. -/
theorem single_year_scenario :
    forecast singleYearAssumptions =
      Except.ok [forecastRow singleYearAssumptions 0] ∧
    (forecastRow singleYearAssumptions 0).vehicles = 500 ∧
    (forecastRow singleYearAssumptions 0).computeK8s = 25000 := by
  refine ⟨?_, ?_, ?_⟩
  · rw [(forecast_fails_iff_inverted singleYearAssumptions).2 (by decide)]
    have h1 : nYears singleYearAssumptions = 1 := by decide
    rw [forecastRows, h1]
    simp [List.range_succ]
  · norm_num [forecastRow, intTrunc, vehiclesSeq, customersSeq,
      singleYearAssumptions, defaultAssumptions]
  · norm_num [forecastRow, computeCost, apply_inflation, vehiclesSeq, customersSeq,
      singleYearAssumptions, defaultAssumptions]

/-- Closed form of the customer recurrence of lines 53-55. -/
lemma customersSeq_closed (a : Assumptions) (i : ℕ) :
    customersSeq a i = a.customers_start * (1 + a.customers_growth / 100) ^ i := by
  induction i with
  | zero => simp [customersSeq]
  | succ n ih => rw [customersSeq, ih, pow_succ]; ring

/-- Default sidebar values with the infrastructure-inflation slider at
zero. -/
def flatInfraAssumptions : Assumptions :=
  { defaultAssumptions with infra_increase := 0 }

/-- With zero infrastructure inflation, each of the seven
infrastructure components at year index `i` is its year-0 value scaled
by the compounded population growth factor. -/
def InfraScalesWithPop (a : Assumptions) (i : ℕ) : Prop :=
  (forecastRow a i).computeK8s =
    (forecastRow a 0).computeK8s * (1 + a.customers_growth / 100) ^ i ∧
  (forecastRow a i).transactionalDB =
    (forecastRow a 0).transactionalDB * (1 + a.customers_growth / 100) ^ i ∧
  (forecastRow a i).analyticsBigQuery =
    (forecastRow a 0).analyticsBigQuery * (1 + a.customers_growth / 100) ^ i ∧
  (forecastRow a i).streaming =
    (forecastRow a 0).streaming * (1 + a.customers_growth / 100) ^ i ∧
  (forecastRow a i).monitoring =
    (forecastRow a 0).monitoring * (1 + a.customers_growth / 100) ^ i ∧
  (forecastRow a i).authFirebase =
    (forecastRow a 0).authFirebase * (1 + a.customers_growth / 100) ^ i ∧
  (forecastRow a i).supportTools =
    (forecastRow a 0).supportTools * (1 + a.customers_growth / 100) ^ i

/-- C7 (amended): with `infra_inflation_pct = 0` the inflation
multiplier is 1 every year, so every infrastructure component at year
`i` equals its year-0 value times the population growth factor
`(1 + growth/100)^i` — equal to the year-0 value itself only when the
growth rate is zero. -/
theorem no_inflation_scales_with_population (a : Assumptions)
    (h : a.infra_increase = 0) (i : ℕ) : InfraScalesWithPop a i := by
  unfold InfraScalesWithPop
  refine ⟨?_, ?_, ?_, ?_, ?_, ?_, ?_⟩ <;>
    simp [forecastRow, computeCost, dbCost, bigqueryCost, streamingCost,
      monitoringCost, authCost, supportCost, apply_inflation, vehiclesSeq,
      usersSeq, h, customersSeq_closed] <;>
    ring

/-- Witness for C7 (amended) at the default input with the
infrastructure-inflation slider at zero, year index 1. -/
theorem no_inflation_scales_with_population_witness :
    flatInfraAssumptions.infra_increase = 0 ∧
    InfraScalesWithPop flatInfraAssumptions 1 :=
  ⟨rfl, no_inflation_scales_with_population flatInfraAssumptions rfl 1⟩

/-- Counterexample to C7 as stated: with zero infrastructure inflation
but the default 50% customer growth, the year-1 Compute & Kubernetes
cost (37500) differs from its year-0 value (25000). -/
theorem no_inflation_counterexample :
    flatInfraAssumptions.infra_increase = 0 ∧
    (forecastRow flatInfraAssumptions 1).computeK8s ≠
      (forecastRow flatInfraAssumptions 0).computeK8s := by
  refine ⟨rfl, ?_⟩
  norm_num [forecastRow, computeCost, apply_inflation, vehiclesSeq, customersSeq,
    flatInfraAssumptions, defaultAssumptions]

/-- A pandas column division is non-finite exactly when its denominator
is zero. -/
lemma pdDiv_eq_nonfinite_iff (n d : ℚ) :
    pdDiv n d = PerUnit.nonfinite ↔ d = 0 := by
  unfold pdDiv
  split <;> simp_all

/-- C2 (amended): the three per-unit divisions are unguarded — a row's
ratio is the non-finite IEEE value (carried into the output table)
exactly when the corresponding truncated population is zero; no
exception interrupts the computation in either case. -/
theorem zero_population_gives_nonfinite_ratio (a : Assumptions) (i : ℕ) :
    ((forecastRow a i).perVehicle = PerUnit.nonfinite ↔
      (forecastRow a i).vehicles = 0) ∧
    ((forecastRow a i).perUser = PerUnit.nonfinite ↔
      (forecastRow a i).users = 0) ∧
    ((forecastRow a i).perCustomer = PerUnit.nonfinite ↔
      (forecastRow a i).customers = 0) := by
  refine ⟨?_, ?_, ?_⟩ <;>
    simp [forecastRow, pdDiv_eq_nonfinite_iff, Int.cast_eq_zero]

/-- Default sidebar values with the starting-customer count at zero
(below the widget's `min_value = 1`; the spec nevertheless requires the
engine itself to tolerate a zero population). -/
def zeroCustomerAssumptions : Assumptions :=
  { defaultAssumptions with customers_start := 0 }

/-- Counterexample to C2 as stated: with a zero starting population the
first row's vehicle count is 0 and its per-vehicle ratio is the
non-finite value — an infinity/NaN propagated into the output, not an
"undefined" sentinel produced by a guard. -/
theorem zero_population_counterexample :
    (forecastRow zeroCustomerAssumptions 0).vehicles = 0 ∧
    (forecastRow zeroCustomerAssumptions 0).perVehicle = PerUnit.nonfinite := by
  have hv : vehiclesSeq zeroCustomerAssumptions 0 = 0 := by
    norm_num [vehiclesSeq, customersSeq, zeroCustomerAssumptions, defaultAssumptions]
  have ht : intTrunc (vehiclesSeq zeroCustomerAssumptions 0) = 0 := by
    rw [hv]
    norm_num [intTrunc]
  exact ⟨by simp [forecastRow, ht], by simp [forecastRow, pdDiv, ht]⟩

/-- C9 (amended): the workbook has exactly the two sheets "Forecast"
(the full table) and "Assumptions", and the Assumptions sheet holds
exactly the eight scale/inflation inputs — the nine per-unit cost rates
are not among its fields. -/
theorem export_sheets (a : Assumptions) :
    (excelExport a).forecastSheet = ("Forecast", forecastRows a) ∧
    (excelExport a).assumptionsSheet = ("Assumptions", assumptionsExport a) ∧
    (assumptionsExport a).map Prod.fst =
      ["Start Year", "End Year", "Starting Customers",
       "Annual Customer Growth (%)", "Vehicles per Customer",
       "Riders per Vehicle", "Infrastructure Inflation (%)",
       "Staff Inflation (%)"] :=
  ⟨rfl, rfl, rfl⟩

/-- Default sidebar values with each of the nine cost rates set to a
distinctive tag value 771..779 so that their presence in the export can
be tested. -/
def taggedRateAssumptions : Assumptions :=
  { defaultAssumptions with
    cost_per_vehicle_compute := 771
  , cost_per_vehicle_db := 772
  , cost_per_vehicle_bigquery := 773
  , cost_per_vehicle_streaming := 774
  , cost_per_vehicle_monitoring := 775
  , cost_per_user_auth := 776
  , cost_per_user_support := 777
  , staff_support_per_customer := 778
  , staff_devops_per_customer := 779 }

/-- Counterexample to C9 as stated: tagging each cost rate with a
distinctive value, the exported Assumptions sheet evaluates to the
eight scale/inflation values only — none of the nine tags appears, so
the cost-rate inputs are not exported. -/
theorem export_omits_cost_rates :
    taggedRateAssumptions.cost_per_vehicle_compute = 771 ∧
    (assumptionsExport taggedRateAssumptions).map Prod.snd =
      [2025, 2030, 10, 50, 50, 10, 5, 5] ∧
    ∀ v ∈ (assumptionsExport taggedRateAssumptions).map Prod.snd,
      v ∉ ([771, 772, 773, 774, 775, 776, 777, 778, 779] : List ℚ) := by
  refine ⟨rfl, ?_, ?_⟩
  · norm_num [assumptionsExport, taggedRateAssumptions, defaultAssumptions]
  · intro v hv
    simp only [assumptionsExport, taggedRateAssumptions, defaultAssumptions,
      List.map_cons, List.map_nil, List.mem_cons, List.not_mem_nil] at hv ⊢
    rcases hv with h | h | h | h | h | h | h | h | h <;>
      first
      | exact h.elim
      | (subst h; norm_num)

/-- Dividing a non-zero numerator by the truncation of `p` gives a
different result from dividing by `p` itself whenever the truncation
changed `p` (the non-finite case of a zero truncation included). -/
lemma pdDiv_trunc_ne (g p : ℚ) (hg : g ≠ 0)
    (hne : ((intTrunc p : ℤ) : ℚ) ≠ p) :
    pdDiv g ((intTrunc p : ℤ) : ℚ) ≠ PerUnit.finite (g / p) := by
  by_cases ht : ((intTrunc p : ℤ) : ℚ) = 0
  · rw [pdDiv, if_pos ht]
    simp
  · rw [pdDiv, if_neg ht]
    intro hEq
    have hdiv : g / ((intTrunc p : ℤ) : ℚ) = g / p := by injection hEq
    rcases eq_or_ne p 0 with hp | hp
    · subst hp
      rw [div_zero] at hdiv
      exact div_ne_zero hg ht hdiv
    · rw [div_eq_div_iff ht hp] at hdiv
      exact hne (mul_left_cancel₀ hg hdiv).symm

/-- C10 (amended): each per-unit ratio divides Grand Total by the
int-truncated population column (the display value), and — provided
Grand Total is non-zero — the result differs from dividing by the
un-truncated floating-point population whenever that population has a
fractional part.  (With a zero Grand Total the two divisions coincide
at 0, so the non-zero proviso is necessary.) -/
theorem ratios_use_truncated_population (a : Assumptions) (i : ℕ) :
    ((forecastRow a i).perVehicle =
        pdDiv (forecastRow a i).grandTotal ((intTrunc (vehiclesSeq a i) : ℤ) : ℚ) ∧
      (forecastRow a i).perUser =
        pdDiv (forecastRow a i).grandTotal ((intTrunc (usersSeq a i) : ℤ) : ℚ) ∧
      (forecastRow a i).perCustomer =
        pdDiv (forecastRow a i).grandTotal ((intTrunc (customersSeq a i) : ℤ) : ℚ)) ∧
    ((forecastRow a i).grandTotal ≠ 0 →
      (((intTrunc (vehiclesSeq a i) : ℤ) : ℚ) ≠ vehiclesSeq a i →
        (forecastRow a i).perVehicle ≠
          PerUnit.finite ((forecastRow a i).grandTotal / vehiclesSeq a i)) ∧
      (((intTrunc (usersSeq a i) : ℤ) : ℚ) ≠ usersSeq a i →
        (forecastRow a i).perUser ≠
          PerUnit.finite ((forecastRow a i).grandTotal / usersSeq a i)) ∧
      (((intTrunc (customersSeq a i) : ℤ) : ℚ) ≠ customersSeq a i →
        (forecastRow a i).perCustomer ≠
          PerUnit.finite ((forecastRow a i).grandTotal / customersSeq a i))) := by
  refine ⟨⟨rfl, rfl, rfl⟩, fun hg => ⟨fun hne => ?_, fun hne => ?_, fun hne => ?_⟩⟩
  · exact pdDiv_trunc_ne (forecastRow a i).grandTotal (vehiclesSeq a i) hg hne
  · exact pdDiv_trunc_ne (forecastRow a i).grandTotal (usersSeq a i) hg hne
  · exact pdDiv_trunc_ne (forecastRow a i).grandTotal (customersSeq a i) hg hne

/-- One customer, one vehicle per customer and one rider per vehicle:
after one year of 50% growth every population is 1.5, whose truncation
is 1. -/
def fractionalAssumptions : Assumptions :=
  { defaultAssumptions with
    customers_start := 1
  , vehicles_per_customer := 1
  , riders_per_vehicle := 1 }

/-- Witness for C10 (amended): at year index 1 of the fractional input
the vehicle population is 3/2 (truncated to 1), Grand Total is
non-zero, and the stored ratio differs from Grand Total divided by the
un-truncated population. -/
theorem ratios_use_truncated_population_witness :
    (forecastRow fractionalAssumptions 1).grandTotal ≠ 0 ∧
    ((intTrunc (vehiclesSeq fractionalAssumptions 1) : ℤ) : ℚ) ≠
      vehiclesSeq fractionalAssumptions 1 ∧
    (forecastRow fractionalAssumptions 1).perVehicle ≠
      PerUnit.finite
        ((forecastRow fractionalAssumptions 1).grandTotal /
          vehiclesSeq fractionalAssumptions 1) := by
  have hg : (forecastRow fractionalAssumptions 1).grandTotal ≠ 0 := by
    norm_num [forecastRow, computeCost, dbCost, bigqueryCost, streamingCost,
      monitoringCost, authCost, supportCost, supportStaffCost, devopsCost,
      apply_inflation, vehiclesSeq, usersSeq, customersSeq,
      fractionalAssumptions, defaultAssumptions]
  have hne : ((intTrunc (vehiclesSeq fractionalAssumptions 1) : ℤ) : ℚ) ≠
      vehiclesSeq fractionalAssumptions 1 := by
    norm_num [intTrunc, vehiclesSeq, customersSeq, fractionalAssumptions,
      defaultAssumptions]
  exact ⟨hg, hne,
    ((ratios_use_truncated_population fractionalAssumptions 1).2 hg).1 hne⟩

/-- The fractional input with all nine cost rates zeroed: Grand Total
vanishes, so both divisions return 0. -/
def zeroRateAssumptions : Assumptions :=
  { fractionalAssumptions with
    cost_per_vehicle_compute := 0
  , cost_per_vehicle_db := 0
  , cost_per_vehicle_bigquery := 0
  , cost_per_vehicle_streaming := 0
  , cost_per_vehicle_monitoring := 0
  , cost_per_user_auth := 0
  , cost_per_user_support := 0
  , staff_support_per_customer := 0
  , staff_devops_per_customer := 0 }

/-- Counterexample to C10 as stated: with all cost rates zero the
year-1 vehicle population 3/2 has a fractional part, yet the stored
per-vehicle ratio (0) coincides with Grand Total divided by the
un-truncated population — the claimed "differs" fails when Grand Total
is zero. -/
theorem ratio_trunc_counterexample :
    ((intTrunc (vehiclesSeq zeroRateAssumptions 1) : ℤ) : ℚ) ≠
      vehiclesSeq zeroRateAssumptions 1 ∧
    (forecastRow zeroRateAssumptions 1).perVehicle =
      PerUnit.finite
        ((forecastRow zeroRateAssumptions 1).grandTotal /
          vehiclesSeq zeroRateAssumptions 1) := by
  constructor
  · norm_num [intTrunc, vehiclesSeq, customersSeq, zeroRateAssumptions,
      fractionalAssumptions, defaultAssumptions]
  · norm_num [forecastRow, pdDiv, intTrunc, computeCost, dbCost, bigqueryCost,
      streamingCost, monitoringCost, authCost, supportCost, supportStaffCost,
      devopsCost, apply_inflation, vehiclesSeq, usersSeq, customersSeq,
      zeroRateAssumptions, fractionalAssumptions, defaultAssumptions]

/-- The customer series is non-negative when the start value and the
growth rate are. -/
lemma customersSeq_nonneg (a : Assumptions) (hc : 0 ≤ a.customers_start)
    (hg : 0 ≤ a.customers_growth) : ∀ i, 0 ≤ customersSeq a i := by
  intro i
  induction i with
  | zero => exact hc
  | succ n ih =>
      have hg100 : (0:ℚ) ≤ a.customers_growth / 100 :=
        div_nonneg hg (by norm_num)
      exact mul_nonneg ih (by linarith)

/-- One growth step never shrinks the customer series when the rate is
non-negative. -/
lemma customersSeq_le_succ (a : Assumptions) (hc : 0 ≤ a.customers_start)
    (hg : 0 ≤ a.customers_growth) (i : ℕ) :
    customersSeq a i ≤ customersSeq a (i + 1) := by
  have hg100 : (0:ℚ) ≤ a.customers_growth / 100 := div_nonneg hg (by norm_num)
  exact le_mul_of_one_le_right (customersSeq_nonneg a hc hg i) (by linarith)

/-- Truncation toward zero is monotone on non-negatives. -/
lemma intTrunc_mono {x y : ℚ} (hx : 0 ≤ x) (hxy : x ≤ y) :
    intTrunc x ≤ intTrunc y := by
  unfold intTrunc
  rw [if_neg (not_lt.mpr hx), if_neg (not_lt.mpr (hx.trans hxy))]
  exact Int.floor_le_floor hxy

/-- Core step bound: a non-negative rate times a growing non-negative
population, under a compounding multiplier at least 1, is
non-decreasing from year `i` to year `i+1`. -/
lemma apply_inflation_le {c r p q : ℚ} (i : ℕ) (hc : 0 ≤ c) (hr : 0 ≤ r)
    (hp : 0 ≤ p) (hpq : p ≤ q) :
    apply_inflation (c * p) r i ≤ apply_inflation (c * q) r (i + 1) := by
  unfold apply_inflation
  have hr100 : (0:ℚ) ≤ r / 100 := div_nonneg hr (by norm_num)
  have h0 : (0:ℚ) ≤ 1 + r / 100 := by linarith
  have h1 : (1:ℚ) ≤ 1 + r / 100 := by linarith
  have hpow : (1 + r / 100) ^ i ≤ (1 + r / 100) ^ (i + 1) :=
    pow_le_pow_right₀ h1 (Nat.le_succ i)
  exact mul_le_mul (mul_le_mul_of_nonneg_left hpq hc) hpow (pow_nonneg h0 i)
    (mul_nonneg hc (hp.trans hpq))

/-- Every displayed population, every one of the nine cost components
and every aggregate of row `i` is at most its value in row `i+1`. -/
def RowsLE (a : Assumptions) (i : ℕ) : Prop :=
  (forecastRow a i).customers ≤ (forecastRow a (i + 1)).customers ∧
  (forecastRow a i).vehicles ≤ (forecastRow a (i + 1)).vehicles ∧
  (forecastRow a i).users ≤ (forecastRow a (i + 1)).users ∧
  (forecastRow a i).computeK8s ≤ (forecastRow a (i + 1)).computeK8s ∧
  (forecastRow a i).transactionalDB ≤ (forecastRow a (i + 1)).transactionalDB ∧
  (forecastRow a i).analyticsBigQuery ≤ (forecastRow a (i + 1)).analyticsBigQuery ∧
  (forecastRow a i).streaming ≤ (forecastRow a (i + 1)).streaming ∧
  (forecastRow a i).monitoring ≤ (forecastRow a (i + 1)).monitoring ∧
  (forecastRow a i).authFirebase ≤ (forecastRow a (i + 1)).authFirebase ∧
  (forecastRow a i).supportTools ≤ (forecastRow a (i + 1)).supportTools ∧
  (forecastRow a i).supportStaff ≤ (forecastRow a (i + 1)).supportStaff ∧
  (forecastRow a i).devopsEngineers ≤ (forecastRow a (i + 1)).devopsEngineers ∧
  (forecastRow a i).totalInfrastructure ≤ (forecastRow a (i + 1)).totalInfrastructure ∧
  (forecastRow a i).totalStaff ≤ (forecastRow a (i + 1)).totalStaff ∧
  (forecastRow a i).grandTotal ≤ (forecastRow a (i + 1)).grandTotal

/-- C6: within the sidebar input ranges (spec §3's Assumptions
invariants, which include non-negative growth and inflation rates),
every population, every cost component and every aggregate is
non-decreasing from each row to the next. -/
theorem monotone_rows (a : Assumptions) (hin : InRange a) (i : ℕ) :
    RowsLE a i := by
  obtain ⟨h1, h2, h3, h4, h5, h6, h7, h8, h9, h10, h11, h12, h13, h14, h15⟩ := hin
  have hc : (0:ℚ) ≤ a.customers_start := le_trans zero_le_one h1
  have hv : (0:ℚ) ≤ a.vehicles_per_customer := le_trans zero_le_one h3
  have hr : (0:ℚ) ≤ a.riders_per_vehicle := le_trans zero_le_one h4
  have hcn := customersSeq_nonneg a hc h2
  have hcs := customersSeq_le_succ a hc h2
  have hvn : ∀ j, 0 ≤ vehiclesSeq a j := fun j => mul_nonneg (hcn j) hv
  have hvs : ∀ j, vehiclesSeq a j ≤ vehiclesSeq a (j + 1) := fun j =>
    mul_le_mul_of_nonneg_right (hcs j) hv
  have hun : ∀ j, 0 ≤ usersSeq a j := fun j => mul_nonneg (hvn j) hr
  have hus : ∀ j, usersSeq a j ≤ usersSeq a (j + 1) := fun j =>
    mul_le_mul_of_nonneg_right (hvs j) hr
  have hA : computeCost a i ≤ computeCost a (i + 1) :=
    apply_inflation_le i h5 h14 (hvn i) (hvs i)
  have hB : dbCost a i ≤ dbCost a (i + 1) :=
    apply_inflation_le i h6 h14 (hvn i) (hvs i)
  have hC : bigqueryCost a i ≤ bigqueryCost a (i + 1) :=
    apply_inflation_le i h7 h14 (hvn i) (hvs i)
  have hD : streamingCost a i ≤ streamingCost a (i + 1) :=
    apply_inflation_le i h8 h14 (hvn i) (hvs i)
  have hE : monitoringCost a i ≤ monitoringCost a (i + 1) :=
    apply_inflation_le i h9 h14 (hvn i) (hvs i)
  have hF : authCost a i ≤ authCost a (i + 1) :=
    apply_inflation_le i h10 h14 (hun i) (hus i)
  have hG : supportCost a i ≤ supportCost a (i + 1) :=
    apply_inflation_le i h11 h14 (hun i) (hus i)
  have hH : supportStaffCost a i ≤ supportStaffCost a (i + 1) :=
    apply_inflation_le i h12 h15 (hcn i) (hcs i)
  have hI : devopsCost a i ≤ devopsCost a (i + 1) :=
    apply_inflation_le i h13 h15 (hcn i) (hcs i)
  have hTI : computeCost a i + dbCost a i + bigqueryCost a i + streamingCost a i +
      monitoringCost a i + authCost a i + supportCost a i ≤
      computeCost a (i + 1) + dbCost a (i + 1) + bigqueryCost a (i + 1) +
      streamingCost a (i + 1) + monitoringCost a (i + 1) + authCost a (i + 1) +
      supportCost a (i + 1) :=
    add_le_add (add_le_add (add_le_add (add_le_add (add_le_add
      (add_le_add hA hB) hC) hD) hE) hF) hG
  have hTS : supportStaffCost a i + devopsCost a i ≤
      supportStaffCost a (i + 1) + devopsCost a (i + 1) := add_le_add hH hI
  exact ⟨intTrunc_mono (hcn i) (hcs i), intTrunc_mono (hvn i) (hvs i),
    intTrunc_mono (hun i) (hus i), hA, hB, hC, hD, hE, hF, hG, hH, hI,
    hTI, hTS, add_le_add hTI hTS⟩

/-- Witness for C6 at the default sidebar values, first pair of rows. -/
theorem monotone_rows_witness :
    InRange defaultAssumptions ∧ RowsLE defaultAssumptions 0 := by
  have hin : InRange defaultAssumptions := by
    norm_num [InRange, defaultAssumptions]
  exact ⟨hin, monotone_rows defaultAssumptions hin 0⟩
